import Mathlib

/-!
Shallow embedding of `SingularityDetector` (src/src/SingularityDetector.cpp,
src/src/SingularityDetector.h).

Real numbers (C++ `double`) are modelled as `ℚ`; only direct `<` / `>`
comparisons occur in the source, so ordered-field reasoning is faithful.
`std::vector<double>` and `Eigen::VectorXd` become `List ℚ`; the source only
ever indexes them (`v[i]`), modelled by `List.getD v i 0` — every claim that
exercises indexing carries the length hypotheses under which the default is
never reached, matching the source's precondition that out-of-range access
must not happen.  The C++ `int` member/parameter `number_of_joints` is
modelled as `Int`; `std_msgs::UInt8.data` as `ℕ` with `% 256` at each
assignment.
-/

/-- Member state of the `SingularityDetector` component (the private fields of
the class in SingularityDetector.h). -/
structure SingularityDetector where
  l1_lower : List ℚ
  l1_upper : List ℚ
  l2_lower : List ℚ
  l2_upper : List ℚ
  l3_lower : List ℚ
  l3_upper : List ℚ
  number_of_joints : Int
  /-- `std_msgs::UInt8 singularity_scaling` — its `.data` byte. -/
  singularity_scaling : ℕ
  joint_position : List ℚ
deriving DecidableEq

/-- The band test as written in the source:
`joint_position[i] < upper[i] && joint_position[i] > lower[i]` (both strict). -/
def inBand (lo hi p : ℚ) : Bool :=
  decide (p < hi) && decide (p > lo)

/-- Local singularity level of one joint: the if/else-if chain of
`checkSingularityLevel` for a single index (band 3, then band 2, then band 1,
else 0). -/
def localLevel (l1lo l1hi l2lo l2hi l3lo l3hi p : ℚ) : ℕ :=
  if inBand l3lo l3hi p then 3
  else if inBand l2lo l2hi p then 2
  else if inBand l1lo l1hi p then 1
  else 0

/-- The `for (int i=0; i< number_of_joints; i++)` scan of
`checkSingularityLevel`, encoded as a countdown on the number of remaining
iterations `k` (so the running index is `i` and the loop stops when `k = 0`,
i.e. when `i` reaches the joint count).  `acc` is the loop variable `max`;
the band-3 branch sets `temp = 3; max = 3; break`, so it returns `3`
immediately, and otherwise `max` is updated by `if (temp >= max) max = temp`. -/
def levelLoop (pos l1lo l1hi l2lo l2hi l3lo l3hi : List ℚ) : ℕ → ℕ → ℕ → ℕ
  | 0, _, acc => acc
  | k + 1, i, acc =>
    if inBand (l3lo.getD i 0) (l3hi.getD i 0) (pos.getD i 0) then 3
    else
      let temp : ℕ :=
        if inBand (l2lo.getD i 0) (l2hi.getD i 0) (pos.getD i 0) then 2
        else if inBand (l1lo.getD i 0) (l1hi.getD i 0) (pos.getD i 0) then 1
        else 0
      levelLoop pos l1lo l1hi l2lo l2hi l3lo l3hi k (i + 1)
        (if acc ≤ temp then temp else acc)

/-- Definition of `SingularityDetector::checkSingularityLevel`.  Note that the loop bound in
the source is the *member* `number_of_joints`, not the parameter
`number_of_joints_`, which is never read; a negative or zero member count
yields zero iterations, as in the C++ `for` loop. -/
def SingularityDetector.checkSingularityLevel (self : SingularityDetector)
    (number_of_joints_ : Int) (joint_position : List ℚ)
    (l1_lower_ l1_upper_ l2_lower_ l2_upper_ l3_lower_ l3_upper_ : List ℚ) : ℕ :=
  levelLoop joint_position l1_lower_ l1_upper_ l2_lower_ l2_upper_ l3_lower_ l3_upper_
    self.number_of_joints.toNat 0 0

/-- Which of the two loops of `checkAllLimitsSize` produced a diagnostic
(the log message says "lower limit" resp. "upper limit"). -/
inductive LimitKind where
  | lower : LimitKind
  | upper : LimitKind
deriving DecidableEq

/-- One logged size diagnostic of `checkAllLimitsSize`:
`i << " … limit wrong size: " << size << ", should be: " << number_of_joints_`. -/
structure SizeDiag where
  band : ℕ
  kind : LimitKind
  actual : ℕ
  expected : Int
deriving DecidableEq

/-- One of the two `for` loops of `checkAllLimitsSize`: walk the three
sequences in band order and stop at the first whose size differs from
`number_of_joints_` (the source does `return false` inside the loop right
after logging, so at most one diagnostic is produced).  The C++ comparison
`lower_limits[i].size() != number_of_joints_` converts the `int` to `size_t`;
for the representable sizes a vector can have this is equivalent to comparing
the length with `n` over `ℤ` (a negative `n` never equals a length). -/
def checkLimitsLoop (kind : LimitKind) (n : Int) : ℕ → List (List ℚ) → Option SizeDiag
  | _, [] => none
  | i, l :: rest =>
    if (l.length : Int) ≠ n then some ⟨i, kind, l.length, n⟩
    else checkLimitsLoop kind n (i + 1) rest

/-- Definition of `SingularityDetector::checkAllLimitsSize`, returning its boolean result
together with the list of diagnostics it logged. -/
def SingularityDetector.checkAllLimitsSize
    (number_of_joints_ : Int)
    (l1_lower_ l1_upper_ l2_lower_ l2_upper_ l3_lower_ l3_upper_ : List ℚ) :
    Bool × List SizeDiag :=
  let lower_limits := [l1_lower_, l2_lower_, l3_lower_]
  let upper_limits := [l1_upper_, l2_upper_, l3_upper_]
  match checkLimitsLoop LimitKind.lower number_of_joints_ 0 lower_limits with
  | some d => (false, [d])
  | none =>
    match checkLimitsLoop LimitKind.upper number_of_joints_ 0 upper_limits with
    | some d => (false, [d])
    | none => (true, [])

/-- The sequence a diagnostic `(kind, band)` refers to, among the six passed
to `checkAllLimitsSize` (band index as in the source's loop order
`{l1, l2, l3}`). -/
def bandSeq (kind : LimitKind) (band : ℕ)
    (l1_lower_ l1_upper_ l2_lower_ l2_upper_ l3_lower_ l3_upper_ : List ℚ) : List ℚ :=
  match kind, band with
  | LimitKind.lower, 0 => l1_lower_
  | LimitKind.lower, 1 => l2_lower_
  | LimitKind.lower, _ => l3_lower_
  | LimitKind.upper, 0 => l1_upper_
  | LimitKind.upper, 1 => l2_upper_
  | LimitKind.upper, _ => l3_upper_

/-- Definition of `SingularityDetector::configureHook`.  The guard `number_of_joints <= 0`
comes first; then `checkAllLimitsSize`; on success `joint_position` is resized
to `number_of_joints` entries (Eigen leaves the values unspecified and nothing
reads them before they are overwritten, so they are modelled as `0`) and the
scaling byte is initialised to `1`.  The try/catch wrapper only converts an
exception into `false`; the modelled body is exception-free. -/
def SingularityDetector.configureHook (s : SingularityDetector) :
    Bool × SingularityDetector :=
  if s.number_of_joints ≤ 0 then (false, s)
  else if !(SingularityDetector.checkAllLimitsSize s.number_of_joints
      s.l1_lower s.l1_upper s.l2_lower s.l2_upper s.l3_lower s.l3_upper).1 then
    (false, s)
  else
    (true, { s with
      joint_position := List.replicate s.number_of_joints.toNat 0,
      singularity_scaling := 1 })

/-- Host-framework task states relevant to configuration. -/
inductive TaskState where
  | preOperational : TaskState
  | stopped : TaskState
deriving DecidableEq

/-- Modelled from the spec: the host framework's `configure()` transition is
not part of this repository; per the hook's contract ("true to indicate that
configuration succeeded and the Stopped state may be entered … false to
indicate that configuration failed and the Preoperational state is entered"),
the component leaves the non-operating `preOperational` state only when
`configureHook` returns `true`. -/
def configure (s : SingularityDetector) : TaskState × SingularityDetector :=
  if (s.configureHook).1 then (TaskState.stopped, (s.configureHook).2)
  else (TaskState.preOperational, s)

/-- Definition of `SingularityDetector::updateHook`.  The port read either delivers a new
sample (`RTT::NewData`, modelled as `some sample`, which overwrites the member
`joint_position`) or not (`none`).  The returned list collects the values
written to `port_singularity_scaling` during the cycle — the source writes
exactly once, unconditionally, at the end. -/
def SingularityDetector.updateHook (s : SingularityDetector)
    (newSample : Option (List ℚ)) : SingularityDetector × List ℕ :=
  match newSample with
  | some sample =>
    let s1 := { s with joint_position := sample }
    let singularity_level :=
      s1.checkSingularityLevel s1.number_of_joints s1.joint_position
        s1.l1_lower s1.l1_upper s1.l2_lower s1.l2_upper s1.l3_lower s1.l3_upper
    let s2 := { s1 with singularity_scaling := (singularity_level + 1) % 256 }
    (s2, [s2.singularity_scaling])
  | none => (s, [s.singularity_scaling])

/-- A run of consecutive periodic cycles: fold `updateHook` over the per-cycle
port inputs, collecting each cycle's published values. -/
def runCycles (s : SingularityDetector) :
    List (Option (List ℚ)) → SingularityDetector × List (List ℕ)
  | [] => (s, [])
  | o :: rest =>
    let r := s.updateHook o
    let rr := runCycles r.1 rest
    (rr.1, r.2 :: rr.2)

/-- Local level of joint `i` as read off the six limit tables and the
position vector. -/
def localLevelAt (pos l1lo l1hi l2lo l2hi l3lo l3hi : List ℚ) (i : ℕ) : ℕ :=
  localLevel (l1lo.getD i 0) (l1hi.getD i 0) (l2lo.getD i 0) (l2hi.getD i 0)
    (l3lo.getD i 0) (l3hi.getD i 0) (pos.getD i 0)

/-- Reference classifier taken from the spec's words: compute every joint's
local level independently, scanning every joint to completion, and take the
maximum across all joints. -/
def classifyFullScanSpec (n : ℕ)
    (pos l1lo l1hi l2lo l2hi l3lo l3hi : List ℚ) : ℕ :=
  ((List.range n).map (localLevelAt pos l1lo l1hi l2lo l2hi l3lo l3hi)).foldr Nat.max 0

/-! ### Basic facts about the band test and local levels -/

theorem inBand_iff (lo hi p : ℚ) : inBand lo hi p = true ↔ p < hi ∧ lo < p := by
  simp [inBand, gt_iff_lt]

theorem localLevel_le_three (l1lo l1hi l2lo l2hi l3lo l3hi p : ℚ) :
    localLevel l1lo l1hi l2lo l2hi l3lo l3hi p ≤ 3 := by
  unfold localLevel
  split_ifs <;> omega

theorem localLevelAt_le_three (pos l1lo l1hi l2lo l2hi l3lo l3hi : List ℚ) (i : ℕ) :
    localLevelAt pos l1lo l1hi l2lo l2hi l3lo l3hi i ≤ 3 :=
  localLevel_le_three _ _ _ _ _ _ _

theorem foldr_max_le {l : List ℕ} {m : ℕ} (h : ∀ x ∈ l, x ≤ m) :
    l.foldr Nat.max 0 ≤ m := by
  induction l with
  | nil => simp
  | cons a t ih =>
    simp only [List.foldr_cons]
    exact Nat.max_le.mpr ⟨h a (List.mem_cons_self a t),
      ih fun x hx => h x (List.mem_cons_of_mem a hx)⟩

theorem le_foldr_max {l : List ℕ} {x : ℕ} (h : x ∈ l) :
    x ≤ l.foldr Nat.max 0 := by
  induction l with
  | nil => cases h
  | cons a t ih =>
    simp only [List.foldr_cons]
    rcases List.mem_cons.mp h with rfl | hx
    · exact Nat.le_max_left _ _
    · exact le_trans (ih hx) (Nat.le_max_right _ _)

theorem foldr_max_localLevelAt_le (pos l1lo l1hi l2lo l2hi l3lo l3hi : List ℚ)
    (l : List ℕ) :
    ((l.map (localLevelAt pos l1lo l1hi l2lo l2hi l3lo l3hi)).foldr Nat.max 0) ≤ 3 := by
  refine foldr_max_le ?_
  intro x hx
  rcases List.mem_map.mp hx with ⟨j, _, rfl⟩
  exact localLevelAt_le_three _ _ _ _ _ _ _ _

/-- If all joints other than `i` have local level `0` and `i < n`, the
maximum of local levels over `0..n-1` is joint `i`'s local level. -/
theorem foldr_max_single_support (f : ℕ → ℕ) (n i : ℕ) (hi : i < n)
    (h0 : ∀ j < n, j ≠ i → f j = 0) :
    ((List.range n).map f).foldr Nat.max 0 = f i := by
  apply le_antisymm
  · refine foldr_max_le ?_
    intro x hx
    rcases List.mem_map.mp hx with ⟨j, hj, rfl⟩
    rcases eq_or_ne j i with rfl | hne
    · exact le_rfl
    · rw [h0 j (List.mem_range.mp hj) hne]; exact Nat.zero_le _
  · exact le_foldr_max (List.mem_map.mpr ⟨i, List.mem_range.mpr hi, rfl⟩)

/-! ### The classifier loop computes the maximum of local levels -/

theorem levelLoop_eq_max (pos l1lo l1hi l2lo l2hi l3lo l3hi : List ℚ) (k : ℕ) :
    ∀ (i acc : ℕ), acc ≤ 3 →
      levelLoop pos l1lo l1hi l2lo l2hi l3lo l3hi k i acc =
        Nat.max acc (((List.range' i k).map
          (localLevelAt pos l1lo l1hi l2lo l2hi l3lo l3hi)).foldr Nat.max 0) := by
  induction k with
  | zero =>
    intro i acc _
    simp [levelLoop]
  | succ k ih =>
    intro i acc hacc
    rw [List.range'_succ]
    simp only [List.map_cons, List.foldr_cons]
    by_cases h3 : inBand (l3lo.getD i 0) (l3hi.getD i 0) (pos.getD i 0) = true
    · have hfi : localLevelAt pos l1lo l1hi l2lo l2hi l3lo l3hi i = 3 := by
        unfold localLevelAt localLevel
        rw [if_pos h3]
      have hrest := foldr_max_localLevelAt_le pos l1lo l1hi l2lo l2hi l3lo l3hi
        (List.range' (i + 1) k)
      have h1 : Nat.max 3 (List.foldr Nat.max 0 (List.map
          (localLevelAt pos l1lo l1hi l2lo l2hi l3lo l3hi) (List.range' (i + 1) k))) = 3 :=
        Nat.max_eq_left hrest
      have h2 : Nat.max acc 3 = 3 := Nat.max_eq_right hacc
      rw [levelLoop, if_pos h3, hfi, h1, h2]
    · have hfi : (if inBand (l2lo.getD i 0) (l2hi.getD i 0) (pos.getD i 0) then (2:ℕ)
           else if inBand (l1lo.getD i 0) (l1hi.getD i 0) (pos.getD i 0) then 1
           else 0) = localLevelAt pos l1lo l1hi l2lo l2hi l3lo l3hi i := by
        unfold localLevelAt localLevel
        rw [if_neg h3]
      have hL3 := localLevelAt_le_three pos l1lo l1hi l2lo l2hi l3lo l3hi i
      rw [levelLoop, if_neg h3, hfi]
      rw [ih (i + 1) _ (by split_ifs <;> omega)]
      have hmax : (if acc ≤ localLevelAt pos l1lo l1hi l2lo l2hi l3lo l3hi i
            then localLevelAt pos l1lo l1hi l2lo l2hi l3lo l3hi i else acc) =
          Nat.max acc (localLevelAt pos l1lo l1hi l2lo l2hi l3lo l3hi i) := by
        split_ifs with h
        · exact (Nat.max_eq_right h).symm
        · exact (Nat.max_eq_left (by omega)).symm
      rw [hmax]
      exact Nat.max_assoc _ _ _

/-- The classifier equals the spec's reference classifier (max of local
levels over the member joint count); shared bridge used by several claims. -/
theorem check_eq_spec (s : SingularityDetector) (number_of_joints_ : Int)
    (pos l1lo l1hi l2lo l2hi l3lo l3hi : List ℚ) :
    s.checkSingularityLevel number_of_joints_ pos l1lo l1hi l2lo l2hi l3lo l3hi =
      classifyFullScanSpec s.number_of_joints.toNat pos l1lo l1hi l2lo l2hi l3lo l3hi := by
  unfold SingularityDetector.checkSingularityLevel classifyFullScanSpec
  rw [List.range_eq_range']
  rw [levelLoop_eq_max pos l1lo l1hi l2lo l2hi l3lo l3hi s.number_of_joints.toNat 0 0
    (by omega)]
  exact Nat.zero_max _

theorem check_le_three (s : SingularityDetector) (number_of_joints_ : Int)
    (pos l1lo l1hi l2lo l2hi l3lo l3hi : List ℚ) :
    s.checkSingularityLevel number_of_joints_ pos l1lo l1hi l2lo l2hi l3lo l3hi ≤ 3 := by
  rw [check_eq_spec]
  exact foldr_max_localLevelAt_le _ _ _ _ _ _ _ _

/-! ### Unfolding the size validator -/

/-- The validator `checkAllLimitsSize` laid out as the chain of early-returning size tests
in source order: the three lower sequences (bands 1, 2, 3), then the three
upper sequences. -/
theorem checkAllLimitsSize_eq (n : Int) (l1lo l1hi l2lo l2hi l3lo l3hi : List ℚ) :
    SingularityDetector.checkAllLimitsSize n l1lo l1hi l2lo l2hi l3lo l3hi =
      if (l1lo.length : Int) ≠ n then (false, [⟨0, LimitKind.lower, l1lo.length, n⟩])
      else if (l2lo.length : Int) ≠ n then (false, [⟨1, LimitKind.lower, l2lo.length, n⟩])
      else if (l3lo.length : Int) ≠ n then (false, [⟨2, LimitKind.lower, l3lo.length, n⟩])
      else if (l1hi.length : Int) ≠ n then (false, [⟨0, LimitKind.upper, l1hi.length, n⟩])
      else if (l2hi.length : Int) ≠ n then (false, [⟨1, LimitKind.upper, l2hi.length, n⟩])
      else if (l3hi.length : Int) ≠ n then (false, [⟨2, LimitKind.upper, l3hi.length, n⟩])
      else (true, []) := by
  split_ifs <;> simp_all [SingularityDetector.checkAllLimitsSize, checkLimitsLoop]

theorem checkAllLimitsSize_true_iff (n : Int) (l1lo l1hi l2lo l2hi l3lo l3hi : List ℚ) :
    (SingularityDetector.checkAllLimitsSize n l1lo l1hi l2lo l2hi l3lo l3hi).1 = true ↔
      ((l1lo.length : Int) = n ∧ (l1hi.length : Int) = n ∧ (l2lo.length : Int) = n ∧
       (l2hi.length : Int) = n ∧ (l3lo.length : Int) = n ∧ (l3hi.length : Int) = n) := by
  rw [checkAllLimitsSize_eq]
  split_ifs <;> simp_all

theorem configureHook_true_iff (s : SingularityDetector) :
    (s.configureHook).1 = true ↔
      (0 < s.number_of_joints ∧
        (SingularityDetector.checkAllLimitsSize s.number_of_joints s.l1_lower s.l1_upper
          s.l2_lower s.l2_upper s.l3_lower s.l3_upper).1 = true) := by
  unfold SingularityDetector.configureHook
  split_ifs with hneg hchk
  · simp only [false_iff, not_and]
    intro hpos
    omega
  · have hfalse : (SingularityDetector.checkAllLimitsSize s.number_of_joints s.l1_lower
        s.l1_upper s.l2_lower s.l2_upper s.l3_lower s.l3_upper).1 = false := by
      simpa using hchk
    simp only [false_iff, not_and]
    intro _ htrue
    rw [htrue] at hfalse
    cases hfalse
  · simp only [true_iff]
    refine ⟨by omega, ?_⟩
    simpa using hchk

/-! ### Monotonicity of the local level under nested bands -/

theorem localLevel_of_band3 {l3lo l3hi p : ℚ} (h : inBand l3lo l3hi p = true)
    (l1lo l1hi l2lo l2hi : ℚ) : localLevel l1lo l1hi l2lo l2hi l3lo l3hi p = 3 := by
  unfold localLevel
  rw [if_pos h]

theorem two_le_localLevel_of_band2 {l2lo l2hi p : ℚ} (h : inBand l2lo l2hi p = true)
    (l1lo l1hi l3lo l3hi : ℚ) : 2 ≤ localLevel l1lo l1hi l2lo l2hi l3lo l3hi p := by
  unfold localLevel
  split_ifs <;> simp_all

theorem one_le_localLevel_of_band1 {l1lo l1hi p : ℚ} (h : inBand l1lo l1hi p = true)
    (l2lo l2hi l3lo l3hi : ℚ) : 1 ≤ localLevel l1lo l1hi l2lo l2hi l3lo l3hi p := by
  unfold localLevel
  split_ifs <;> simp_all

theorem localLevel_mono_in {l1lo l1hi l2lo l2hi l3lo l3hi : ℚ}
    (h12 : l1lo ≤ l2lo) (h23 : l2lo ≤ l3lo) (h32 : l3hi ≤ l2hi) (h21 : l2hi ≤ l1hi)
    (hne : l3lo < l3hi) {p q : ℚ} (hpq : p ≤ q) (hq : q ≤ (l3lo + l3hi) / 2) :
    localLevel l1lo l1hi l2lo l2hi l3lo l3hi p ≤
      localLevel l1lo l1hi l2lo l2hi l3lo l3hi q := by
  have hc : (l3lo + l3hi) / 2 < l3hi := by linarith
  by_cases h3 : inBand l3lo l3hi p = true
  · have h3' : inBand l3lo l3hi q = true := by
      rw [inBand_iff] at h3 ⊢
      exact ⟨lt_of_le_of_lt hq hc, lt_of_lt_of_le h3.2 hpq⟩
    rw [localLevel_of_band3 h3, localLevel_of_band3 h3']
  · by_cases h2 : inBand l2lo l2hi p = true
    · have h2' : inBand l2lo l2hi q = true := by
        rw [inBand_iff] at h2 ⊢
        refine ⟨by linarith, lt_of_lt_of_le h2.2 hpq⟩
      have hlev : localLevel l1lo l1hi l2lo l2hi l3lo l3hi p = 2 := by
        unfold localLevel
        rw [if_neg h3, if_pos h2]
      rw [hlev]
      exact two_le_localLevel_of_band2 h2' _ _ _ _
    · by_cases h1 : inBand l1lo l1hi p = true
      · have h1' : inBand l1lo l1hi q = true := by
          rw [inBand_iff] at h1 ⊢
          refine ⟨by linarith, lt_of_lt_of_le h1.2 hpq⟩
        have hlev : localLevel l1lo l1hi l2lo l2hi l3lo l3hi p = 1 := by
          unfold localLevel
          rw [if_neg h3, if_neg h2, if_pos h1]
        rw [hlev]
        exact one_le_localLevel_of_band1 h1' _ _ _ _
      · have hlev : localLevel l1lo l1hi l2lo l2hi l3lo l3hi p = 0 := by
          unfold localLevel
          rw [if_neg h3, if_neg h2, if_neg h1]
        rw [hlev]
        exact Nat.zero_le _

theorem localLevel_mono_out {l1lo l1hi l2lo l2hi l3lo l3hi : ℚ}
    (h12 : l1lo ≤ l2lo) (h23 : l2lo ≤ l3lo) (h32 : l3hi ≤ l2hi) (h21 : l2hi ≤ l1hi)
    (hne : l3lo < l3hi) {p q : ℚ} (hp : (l3lo + l3hi) / 2 ≤ p) (hpq : p ≤ q) :
    localLevel l1lo l1hi l2lo l2hi l3lo l3hi q ≤
      localLevel l1lo l1hi l2lo l2hi l3lo l3hi p := by
  have hc : l3lo < (l3lo + l3hi) / 2 := by linarith
  by_cases h3 : inBand l3lo l3hi q = true
  · have h3' : inBand l3lo l3hi p = true := by
      rw [inBand_iff] at h3 ⊢
      exact ⟨lt_of_le_of_lt hpq h3.1, lt_of_lt_of_le hc hp⟩
    rw [localLevel_of_band3 h3, localLevel_of_band3 h3']
  · by_cases h2 : inBand l2lo l2hi q = true
    · have h2' : inBand l2lo l2hi p = true := by
        rw [inBand_iff] at h2 ⊢
        refine ⟨lt_of_le_of_lt hpq h2.1, by linarith⟩
      have hlev : localLevel l1lo l1hi l2lo l2hi l3lo l3hi q = 2 := by
        unfold localLevel
        rw [if_neg h3, if_pos h2]
      rw [hlev]
      exact two_le_localLevel_of_band2 h2' _ _ _ _
    · by_cases h1 : inBand l1lo l1hi q = true
      · have h1' : inBand l1lo l1hi p = true := by
          rw [inBand_iff] at h1 ⊢
          refine ⟨lt_of_le_of_lt hpq h1.1, by linarith⟩
        have hlev : localLevel l1lo l1hi l2lo l2hi l3lo l3hi q = 1 := by
          unfold localLevel
          rw [if_neg h3, if_neg h2, if_pos h1]
        rw [hlev]
        exact one_le_localLevel_of_band1 h1' _ _ _ _
      · have hlev : localLevel l1lo l1hi l2lo l2hi l3lo l3hi q = 0 := by
          unfold localLevel
          rw [if_neg h3, if_neg h2, if_neg h1]
        rw [hlev]
        exact Nat.zero_le _

/-! ### Claim theorems -/

/-- C1: for every joint count `n > 0`, position vector of length `n` and six
band sequences of length `n`, the level returned by `checkSingularityLevel`
equals the maximum over all joint indices `i < n` of that joint's local
level (3 if strictly inside band 3, else 2 if strictly inside band 2, else 1
if strictly inside band 1, else 0). -/
theorem C1_level_eq_max_of_local_levels (s : SingularityDetector)
    (pos l1lo l1hi l2lo l2hi l3lo l3hi : List ℚ)
    (hn : 0 < s.number_of_joints)
    (hpos : pos.length = s.number_of_joints.toNat)
    (h1 : l1lo.length = s.number_of_joints.toNat)
    (h2 : l1hi.length = s.number_of_joints.toNat)
    (h3 : l2lo.length = s.number_of_joints.toNat)
    (h4 : l2hi.length = s.number_of_joints.toNat)
    (h5 : l3lo.length = s.number_of_joints.toNat)
    (h6 : l3hi.length = s.number_of_joints.toNat) :
    s.checkSingularityLevel s.number_of_joints pos l1lo l1hi l2lo l2hi l3lo l3hi =
      ((List.range s.number_of_joints.toNat).map
        (localLevelAt pos l1lo l1hi l2lo l2hi l3lo l3hi)).foldr Nat.max 0 :=
  check_eq_spec s s.number_of_joints pos l1lo l1hi l2lo l2hi l3lo l3hi

theorem C1_level_eq_max_of_local_levels_witness :
    SingularityDetector.checkSingularityLevel
      ⟨[-200, -200], [200, 200], [-100, -100], [100, 100], [-50, -50], [50, 50], 2, 1, []⟩
      2 [150, 500] [-200, -200] [200, 200] [-100, -100] [100, 100] [-50, -50] [50, 50] =
      ((List.range (2 : Int).toNat).map
        (localLevelAt [150, 500] [-200, -200] [200, 200] [-100, -100] [100, 100]
          [-50, -50] [50, 50])).foldr Nat.max 0 :=
  C1_level_eq_max_of_local_levels
    ⟨[-200, -200], [200, 200], [-100, -100], [100, 100], [-50, -50], [50, 50], 2, 1, []⟩
    [150, 500] [-200, -200] [200, 200] [-100, -100] [100, 100] [-50, -50] [50, 50]
    (by decide) rfl rfl rfl rfl rfl rfl rfl

/-- C2 counterexample: with joint count 1, both `l1_lower_` and `l1_upper_`
are mismatched (length 0 ≠ 1), yet `checkAllLimitsSize` reports exactly one
diagnostic — for `l1_lower_` — and none for the mismatched `l1_upper_`: the
validator stops at the first mismatch instead of reporting every one. -/
theorem C2_short_circuit_counterexample :
    SingularityDetector.checkAllLimitsSize 1 [] [] [0] [0] [0] [0] =
      (false, [⟨0, LimitKind.lower, 0, 1⟩]) ∧
    (([] : List ℚ).length : Int) ≠ 1 ∧
    ¬ ∃ d ∈ (SingularityDetector.checkAllLimitsSize 1 [] [] [0] [0] [0] [0]).2,
        d.kind = LimitKind.upper := by
  decide

/-- C2 (amended): `checkAllLimitsSize` returns true (with no diagnostics) iff
all six sequences have length equal to the joint count; otherwise it
short-circuits: it returns false reporting exactly ONE diagnostic, for the
first mismatched sequence in checking order (lower bands 1–3, then upper
bands 1–3), and that diagnostic truthfully records the band index, the
actual length of the corresponding sequence, and the expected length. -/
theorem C2_single_diagnostic_short_circuit (n : Int)
    (l1lo l1hi l2lo l2hi l3lo l3hi : List ℚ) (r : Bool × List SizeDiag)
    (hr : r = SingularityDetector.checkAllLimitsSize n l1lo l1hi l2lo l2hi l3lo l3hi) :
    (r.1 = true ↔ ((l1lo.length : Int) = n ∧ (l1hi.length : Int) = n ∧
      (l2lo.length : Int) = n ∧ (l2hi.length : Int) = n ∧
      (l3lo.length : Int) = n ∧ (l3hi.length : Int) = n)) ∧
    (r.1 = false → r.2.length = 1) ∧
    (∀ d ∈ r.2, d.expected = n ∧ (d.actual : Int) ≠ n ∧
      (bandSeq d.kind d.band l1lo l1hi l2lo l2hi l3lo l3hi).length = d.actual) := by
  subst hr
  rw [checkAllLimitsSize_eq]
  split_ifs <;> simp_all [bandSeq]

theorem C2_single_diagnostic_short_circuit_witness :
    (SingularityDetector.checkAllLimitsSize 2 [] [1, 2] [1, 2] [1, 2] [1, 2] [1, 2]).2.length
      = 1 :=
  (C2_single_diagnostic_short_circuit 2 [] [1, 2] [1, 2] [1, 2] [1, 2] [1, 2] _ rfl).2.1
    (by decide)

/-- C3: the configuration gate — `configureHook`'s `number_of_joints <= 0`
guard combined with `checkAllLimitsSize` — succeeds iff the joint count is
positive and all six limit sequences have exactly that length; when it
returns false the framework keeps the component in the non-operating
pre-operational state. -/
theorem C3_configure_gate_iff (s : SingularityDetector) :
    ((s.configureHook).1 = true ↔
      (0 < s.number_of_joints ∧
        (s.l1_lower.length : Int) = s.number_of_joints ∧
        (s.l1_upper.length : Int) = s.number_of_joints ∧
        (s.l2_lower.length : Int) = s.number_of_joints ∧
        (s.l2_upper.length : Int) = s.number_of_joints ∧
        (s.l3_lower.length : Int) = s.number_of_joints ∧
        (s.l3_upper.length : Int) = s.number_of_joints)) ∧
    ((s.configureHook).1 = false → (configure s).1 = TaskState.preOperational) := by
  constructor
  · rw [configureHook_true_iff, checkAllLimitsSize_true_iff]
  · intro hf
    unfold configure
    rw [if_neg (by rw [hf]; exact Bool.false_ne_true)]

theorem C3_configure_gate_iff_witness :
    ((⟨[0], [0], [0], [0], [0], [0], 1, 1, []⟩ : SingularityDetector).configureHook).1
      = true :=
  (C3_configure_gate_iff ⟨[0], [0], [0], [0], [0], [0], 1, 1, []⟩).1.mpr (by decide)

/-- C4: each `updateHook` cycle publishes `ScalingOutput` exactly once,
unconditionally; with a new sample the published value is the classified
level + 1 (an integer in {1,2,3,4}); without a sample the previous scaling
value is kept and republished; in particular after a cycle that classified
level 2, five consecutive sample-less cycles each publish 3. -/
theorem C4_update_cycle_contract :
    (∀ (s : SingularityDetector) (o : Option (List ℚ)),
      (s.updateHook o).2.length = 1) ∧
    (∀ (s : SingularityDetector) (pos : List ℚ),
      (s.updateHook (some pos)).2 =
        [s.checkSingularityLevel s.number_of_joints pos s.l1_lower s.l1_upper
          s.l2_lower s.l2_upper s.l3_lower s.l3_upper + 1] ∧
      1 ≤ (s.updateHook (some pos)).1.singularity_scaling ∧
      (s.updateHook (some pos)).1.singularity_scaling ≤ 4) ∧
    (∀ s : SingularityDetector, s.updateHook none = (s, [s.singularity_scaling])) ∧
    (∀ (s : SingularityDetector) (pos : List ℚ),
      s.checkSingularityLevel s.number_of_joints pos s.l1_lower s.l1_upper
        s.l2_lower s.l2_upper s.l3_lower s.l3_upper = 2 →
      (runCycles ((s.updateHook (some pos)).1) (List.replicate 5 none)).2 =
        List.replicate 5 [3]) := by
  refine ⟨?_, ?_, ?_, ?_⟩
  · intro s o
    cases o <;> rfl
  · intro s pos
    have hle := check_le_three s s.number_of_joints pos s.l1_lower s.l1_upper
      s.l2_lower s.l2_upper s.l3_lower s.l3_upper
    refine ⟨?_, ?_, ?_⟩
    · show [(s.checkSingularityLevel s.number_of_joints pos s.l1_lower s.l1_upper
          s.l2_lower s.l2_upper s.l3_lower s.l3_upper + 1) % 256] =
        [s.checkSingularityLevel s.number_of_joints pos s.l1_lower s.l1_upper
          s.l2_lower s.l2_upper s.l3_lower s.l3_upper + 1]
      rw [Nat.mod_eq_of_lt (by omega)]
    · show 1 ≤ (s.checkSingularityLevel s.number_of_joints pos s.l1_lower s.l1_upper
          s.l2_lower s.l2_upper s.l3_lower s.l3_upper + 1) % 256
      omega
    · show (s.checkSingularityLevel s.number_of_joints pos s.l1_lower s.l1_upper
          s.l2_lower s.l2_upper s.l3_lower s.l3_upper + 1) % 256 ≤ 4
      omega
  · intro s
    rfl
  · intro s pos h2
    have hscal : (s.updateHook (some pos)).1.singularity_scaling = 3 := by
      show (s.checkSingularityLevel s.number_of_joints pos s.l1_lower s.l1_upper
          s.l2_lower s.l2_upper s.l3_lower s.l3_upper + 1) % 256 = 3
      rw [h2]
    have hrun : ∀ t : SingularityDetector,
        (runCycles t (List.replicate 5 none)).2 =
          List.replicate 5 [t.singularity_scaling] := fun t => rfl
    rw [hrun, hscal]

theorem C4_update_cycle_contract_witness :
    (runCycles (((⟨[-30], [30], [-20], [20], [-10], [10], 1, 1, []⟩ :
        SingularityDetector).updateHook (some [15])).1) (List.replicate 5 none)).2 =
      List.replicate 5 [3] :=
  C4_update_cycle_contract.2.2.2
    ⟨[-30], [30], [-20], [20], [-10], [10], 1, 1, []⟩ [15] (by decide)

/-- C5: all interval comparisons are strict — a position exactly equal to a
band's lower or upper limit is not inside that band, so the local level
cannot be the one that band alone would grant: at a band-3 boundary the
level is not 3, at a band-2 boundary not 2, at a band-1 boundary not 1. -/
theorem C5_strict_boundary (lo hi p a b c d e f : ℚ) (h : p = lo ∨ p = hi) :
    inBand lo hi p = false ∧
    localLevel a b c d lo hi p ≠ 3 ∧
    localLevel a b lo hi e f p ≠ 2 ∧
    localLevel lo hi c d e f p ≠ 1 := by
  have hband : inBand lo hi p = false := by
    rcases h with rfl | rfl
    · simp [inBand]
    · simp [inBand]
  refine ⟨hband, ?_, ?_, ?_⟩
  · unfold localLevel
    rw [hband]
    split_ifs <;> simp_all
  · unfold localLevel
    rw [hband]
    split_ifs <;> simp_all
  · unfold localLevel
    rw [hband]
    split_ifs <;> simp_all

theorem C5_strict_boundary_witness :
    inBand 0 5 0 = false ∧
    localLevel 1 2 3 4 0 5 0 ≠ 3 ∧
    localLevel 1 2 0 5 6 7 0 ≠ 2 ∧
    localLevel 0 5 3 4 6 7 0 ≠ 1 :=
  C5_strict_boundary 0 5 0 1 2 3 4 6 7 (Or.inl rfl)

/-- C6: on length-matched inputs the classifier with the early exit at local
level 3 returns exactly what the spec's reference classifier returns when it
scans every joint to completion and takes the maximum local level. -/
theorem C6_early_exit_eq_full_scan (s : SingularityDetector) (number_of_joints_ : Int)
    (pos l1lo l1hi l2lo l2hi l3lo l3hi : List ℚ)
    (hpos : pos.length = s.number_of_joints.toNat)
    (h1 : l1lo.length = s.number_of_joints.toNat)
    (h2 : l1hi.length = s.number_of_joints.toNat)
    (h3 : l2lo.length = s.number_of_joints.toNat)
    (h4 : l2hi.length = s.number_of_joints.toNat)
    (h5 : l3lo.length = s.number_of_joints.toNat)
    (h6 : l3hi.length = s.number_of_joints.toNat) :
    s.checkSingularityLevel number_of_joints_ pos l1lo l1hi l2lo l2hi l3lo l3hi =
      classifyFullScanSpec s.number_of_joints.toNat pos l1lo l1hi l2lo l2hi l3lo l3hi :=
  check_eq_spec s number_of_joints_ pos l1lo l1hi l2lo l2hi l3lo l3hi

theorem C6_early_exit_eq_full_scan_witness :
    SingularityDetector.checkSingularityLevel
      ⟨[-2, -2], [2, 2], [-1, -1], [1, 1], [-1, -1], [1, 1], 2, 1, []⟩
      2 [0, 5] [-2, -2] [2, 2] [-1, -1] [1, 1] [-1, -1] [1, 1] =
      classifyFullScanSpec (2 : Int).toNat [0, 5] [-2, -2] [2, 2] [-1, -1] [1, 1]
        [-1, -1] [1, 1] :=
  C6_early_exit_eq_full_scan
    ⟨[-2, -2], [2, 2], [-1, -1], [1, 1], [-1, -1], [1, 1], 2, 1, []⟩
    2 [0, 5] [-2, -2] [2, 2] [-1, -1] [1, 1] [-1, -1] [1, 1]
    rfl rfl rfl rfl rfl rfl rfl

/-- C7: the classifier is a deterministic pure function of the classify
inputs (joint count, position, band tables): two invocations on objects that
agree on the member `number_of_joints` — the only member state the function
reads — with identical position and band arguments return identical levels,
whatever the rest of the hidden member state is; the comparisons are the
direct strict orders with no epsilon. -/
theorem C7_classifier_deterministic (s1 s2 : SingularityDetector)
    (h : s1.number_of_joints = s2.number_of_joints)
    (number_of_joints_ : Int) (pos l1lo l1hi l2lo l2hi l3lo l3hi : List ℚ) :
    s1.checkSingularityLevel number_of_joints_ pos l1lo l1hi l2lo l2hi l3lo l3hi =
      s2.checkSingularityLevel number_of_joints_ pos l1lo l1hi l2lo l2hi l3lo l3hi := by
  unfold SingularityDetector.checkSingularityLevel
  rw [h]

theorem C7_classifier_deterministic_witness :
    SingularityDetector.checkSingularityLevel
      ⟨[0], [0], [0], [0], [0], [0], 1, 1, [5]⟩ 1 [0] [-2] [2] [-1] [1] [-1] [1] =
      SingularityDetector.checkSingularityLevel
        ⟨[9], [9], [9], [9], [9], [9], 1, 7, []⟩ 1 [0] [-2] [2] [-1] [1] [-1] [1] :=
  C7_classifier_deterministic
    ⟨[0], [0], [0], [0], [0], [0], 1, 1, [5]⟩
    ⟨[9], [9], [9], [9], [9], [9], 1, 7, []⟩ rfl 1 [0] [-2] [2] [-1] [1] [-1] [1]

/-- C8 counterexample: with the (non-nested) bands band1 = (0, 100),
band2 = (20, 30), band3 = (40, 60) on a single joint, the band-3 center is
50; moving the joint from 25 to 35 — monotonically from outside toward that
center — DROPS the classified level from 2 to 1, so the classification is
not non-decreasing on the way in as the claim states for arbitrary band
configurations. -/
theorem C8_monotone_counterexample :
    (25 : ℚ) ≤ 35 ∧ (35 : ℚ) ≤ (40 + 60) / 2 ∧
    SingularityDetector.checkSingularityLevel
      ⟨[0], [100], [20], [30], [40], [60], 1, 1, []⟩ 1 [25]
      [0] [100] [20] [30] [40] [60] = 2 ∧
    SingularityDetector.checkSingularityLevel
      ⟨[0], [100], [20], [30], [40], [60], 1, 1, []⟩ 1 [35]
      [0] [100] [20] [30] [40] [60] = 1 := by
  refine ⟨by norm_num, by norm_num, ?_, ?_⟩ <;> decide

/-- C8 (amended): under NESTED band configuration
(`l1lo ≤ l2lo ≤ l3lo` and `l3hi ≤ l2hi ≤ l1hi`) with a nonempty band 3, a
joint's classification is non-decreasing as its position moves monotonically
up to the band-3 center and non-increasing moving monotonically away from
it; and when every other joint's local level is 0, the classifier's overall
result equals exactly that joint's local level. -/
theorem C8_monotone_nested_bands (l1lo l1hi l2lo l2hi l3lo l3hi : ℚ)
    (h12 : l1lo ≤ l2lo) (h23 : l2lo ≤ l3lo) (h32 : l3hi ≤ l2hi) (h21 : l2hi ≤ l1hi)
    (hne : l3lo < l3hi) :
    (∀ p q : ℚ, p ≤ q → q ≤ (l3lo + l3hi) / 2 →
      localLevel l1lo l1hi l2lo l2hi l3lo l3hi p ≤
        localLevel l1lo l1hi l2lo l2hi l3lo l3hi q) ∧
    (∀ p q : ℚ, (l3lo + l3hi) / 2 ≤ p → p ≤ q →
      localLevel l1lo l1hi l2lo l2hi l3lo l3hi q ≤
        localLevel l1lo l1hi l2lo l2hi l3lo l3hi p) ∧
    (∀ (s : SingularityDetector) (number_of_joints_ : Int)
        (pos L1lo L1hi L2lo L2hi L3lo L3hi : List ℚ) (i : ℕ),
      i < s.number_of_joints.toNat →
      (∀ j < s.number_of_joints.toNat, j ≠ i →
        localLevelAt pos L1lo L1hi L2lo L2hi L3lo L3hi j = 0) →
      s.checkSingularityLevel number_of_joints_ pos L1lo L1hi L2lo L2hi L3lo L3hi =
        localLevelAt pos L1lo L1hi L2lo L2hi L3lo L3hi i) := by
  refine ⟨?_, ?_, ?_⟩
  · intro p q hpq hq
    exact localLevel_mono_in h12 h23 h32 h21 hne hpq hq
  · intro p q hp hpq
    exact localLevel_mono_out h12 h23 h32 h21 hne hp hpq
  · intro s number_of_joints_ pos L1lo L1hi L2lo L2hi L3lo L3hi i hi h0
    rw [check_eq_spec]
    exact foldr_max_single_support _ _ _ hi h0

theorem C8_monotone_nested_bands_witness :
    localLevel (-30) 30 (-20) 20 (-10) 10 (-15) ≤
      localLevel (-30) 30 (-20) 20 (-10) 10 (-5) :=
  (C8_monotone_nested_bands (-30) 30 (-20) 20 (-10) 10 (by norm_num) (by norm_num)
    (by norm_num) (by norm_num) (by norm_num)).1 (-15) (-5) (by norm_num) (by norm_num)

/-- C9: the result of `checkSingularityLevel` is independent of its
`number_of_joints_` parameter — the joint-scan loop is bounded by the member
`number_of_joints`, and the parameter is never read. -/
theorem C9_result_independent_of_parameter (s : SingularityDetector)
    (n1 n2 : Int) (pos l1lo l1hi l2lo l2hi l3lo l3hi : List ℚ) :
    s.checkSingularityLevel n1 pos l1lo l1hi l2lo l2hi l3lo l3hi =
      s.checkSingularityLevel n2 pos l1lo l1hi l2lo l2hi l3lo l3hi := rfl

/-- C10: `checkAllLimitsSize` by itself does not reject a non-positive joint
count — with joint count 0 and six empty sequences it returns true (no
diagnostics) — while `configureHook` still fails on the same configuration
because of its separate `number_of_joints <= 0` guard. -/
theorem C10_size_check_alone_accepts_zero :
    SingularityDetector.checkAllLimitsSize 0 [] [] [] [] [] [] = (true, []) ∧
    ((⟨[], [], [], [], [], [], 0, 1, []⟩ : SingularityDetector).configureHook).1
      = false := by
  decide
